import Mathlib

/-!
Shallow embedding of the vtc-rs SMPTE timecode library (opencinemac/vtc-rs).

Rust `num::Rational64` values are modelled as `ℚ` and `i64` values as `ℤ`:
the library's stated numeric model is exact rational arithmetic, and none of
the claims under verification concern 64-bit overflow behaviour.  The
`num`-crate rounding conventions are reproduced exactly:

* `Ratio::floor` rounds towards minus infinity (`Int.floor`),
* `Ratio::trunc` rounds towards zero (`ratTrunc` below),
* `Ratio::round` rounds to the nearest integer with half-way cases away
  from zero (`ratRound` below),
* `Ratio::rem` (`%`) is the truncated remainder
  `a - (a / b).trunc() * b` (`ratTruncMod` below),
* Rust's native `i64` `/` and `%` truncate towards zero (`Int.tdiv` /
  `Int.tmod`), while `num::integer::div_mod_floor` floors
  (`Int.fdiv` / `Int.fmod`).
-/

namespace VtcRs

/-- `Ratio::trunc`: round a rational towards zero, as an integer. -/
def ratTrunc (q : ℚ) : ℤ :=
  if 0 ≤ q then ⌊q⌋ else ⌈q⌉

/-- `Ratio::round`: round a rational to the nearest integer, half-way cases
away from zero, as an integer. -/
def ratRound (q : ℚ) : ℤ :=
  if 0 ≤ q then ⌊q + 1 / 2⌋ else ⌈q - 1 / 2⌉

/-- `Ratio::rem` (the `%` operator on `num` rationals): the truncated
remainder `self - (self / other).trunc() * other`. -/
def ratTruncMod (a b : ℚ) : ℚ :=
  a - (ratTrunc (a / b) : ℚ) * b

/-- The `Ntsc` enum from `framerate.rs`: the NTSC standard a framerate
adheres to. -/
inductive Ntsc
  | None
  | NonDropFrame
  | DropFrame
deriving DecidableEq, Repr

/-- `Ntsc::is_ntsc` from `framerate.rs`: whether this is any NTSC format. -/
def Ntsc.is_ntsc (self : Ntsc) : Bool :=
  self ≠ Ntsc.None

/-- The `FramerateParseError` enum from `errors.rs`; the error messages
carried by the Rust variants are irrelevant to the claims and dropped. -/
inductive FramerateParseError
  | Ntsc
  | DropFrame
  | Negative
  | Imprecise
  | Conversion
deriving DecidableEq, Repr

/-- The `TimecodeParseError` enum from `errors.rs`; messages dropped. -/
inductive TimecodeParseError
  | Conversion
  | UnknownStrFormat
  | DropFrameValue
deriving DecidableEq, Repr

/-- The `Framerate` struct from `framerate.rs`: a playback rate paired with
its NTSC classification. -/
structure Framerate where
  value : ℚ
  ntsc : Ntsc
deriving DecidableEq, Repr

/-- `Framerate::playback` from `framerate.rs`. -/
def Framerate.playback (self : Framerate) : ℚ :=
  self.value

/-- `Framerate::timebase` from `framerate.rs`: NTSC rates round the playback
value to the nearest whole number. -/
def Framerate.timebase (self : Framerate) : ℚ :=
  if self.ntsc.is_ntsc then (ratRound self.value : ℚ) else self.value

/-- `Framerate::drop_frames_per_minute` from `framerate.rs`.  The Rust code
computes `timebase().round().to_integer() as f64 * 0.066666` and rounds; the
`f64` literal is modelled as the exact decimal `66666 / 1000000` it denotes
(for the drop-frame timebases the claims touch, 30 and 60, the products are
nowhere near a rounding boundary, so the two agree). -/
def Framerate.drop_frames_per_minute (self : Framerate) : Option ℤ :=
  if self.ntsc ≠ Ntsc.DropFrame then Option.none
  else Option.some (ratRound ((ratRound self.timebase : ℚ) * (66666 / 1000000)))

/-- `DROP_DIVISOR_PLAYBACK` from `framerate_parse.rs`. -/
def DROP_DIVISOR_PLAYBACK : ℚ := 30000 / 1001

/-- `DROP_DIVISOR_TIMEBASE` from `framerate_parse.rs`. -/
def DROP_DIVISOR_TIMEBASE : ℚ := 30 / 1

/-- `validate_ntsc_value` from `framerate_parse.rs`, translated clause by
clause (early `return`s become nested `if`s). -/
def validate_ntsc_value (value : ℚ) (ntsc : Ntsc) (is_base : Bool) :
    Except FramerateParseError Unit :=
  if value < 0 then
    Except.error FramerateParseError.Negative
  else if ¬ntsc.is_ntsc then
    Except.ok ()
  else if is_base ∧ value.den ≠ 1 then
    Except.error FramerateParseError.Ntsc
  else if ¬is_base ∧ value.den ≠ 1001 then
    Except.error FramerateParseError.Ntsc
  else if ntsc ≠ Ntsc.DropFrame then
    Except.ok ()
  else
    let drop_divisor := if is_base then DROP_DIVISOR_TIMEBASE else DROP_DIVISOR_PLAYBACK
    if ratTruncMod value drop_divisor ≠ 0 then
      Except.error FramerateParseError.DropFrame
    else
      Except.ok ()

/-- `FramerateSource::to_playback` for `Rational64` from
`framerate_parse.rs`: validate, then convert a timebase to a playback rate
by `round(value) * 1000 / 1001` when NTSC. -/
def ratToPlayback (self : ℚ) (ntsc : Ntsc) (is_timebase : Bool) :
    Except FramerateParseError ℚ := do
  let _ ← validate_ntsc_value self ntsc is_timebase
  if is_timebase ∧ ntsc.is_ntsc then
    Except.ok ((ratRound self : ℚ) * 1000 / 1001)
  else
    Except.ok self

/-- `FramerateSource::to_playback` for `f64` from `framerate_parse.rs`.  The
finite float argument is modelled by the exact rational it denotes (every
finite `f64` is a rational, and `Rational64::from_f64` recovers it), so the
`None`-conversion branch cannot fire. -/
def floatToPlayback (self : ℚ) (ntsc : Ntsc) (is_timebase : Bool) :
    Except FramerateParseError ℚ :=
  if ¬ntsc.is_ntsc then
    Except.error FramerateParseError.Imprecise
  else
    let rational := self
    let rational :=
      if ¬is_timebase ∧ ntsc.is_ntsc then (ratRound rational : ℚ) * 1000 / 1001
      else rational
    ratToPlayback rational ntsc is_timebase

/-- `Framerate::with_playback` from `framerate.rs`, for a rational source. -/
def Framerate.with_playback (rate : ℚ) (ntsc : Ntsc) :
    Except FramerateParseError Framerate := do
  let rational ← ratToPlayback rate ntsc false
  Except.ok { value := rational, ntsc := ntsc }

/-- `Framerate::with_timebase` from `framerate.rs`, for a rational source. -/
def Framerate.with_timebase (base : ℚ) (ntsc : Ntsc) :
    Except FramerateParseError Framerate := do
  let rational ← ratToPlayback base ntsc true
  Except.ok { value := rational, ntsc := ntsc }

/-- The constant `rates::F24` from `framerate.rs`. -/
def F24 : Framerate := { value := 24, ntsc := Ntsc.None }

/-- The constant `rates::F23_98` from `framerate.rs`. -/
def F23_98 : Framerate := { value := 24000 / 1001, ntsc := Ntsc.NonDropFrame }

/-- The constant `rates::F29_97_DF` from `framerate.rs`. -/
def F29_97_DF : Framerate := { value := 30000 / 1001, ntsc := Ntsc.DropFrame }

/-- The constant `rates::F59_94_DF` from `framerate.rs`. -/
def F59_94_DF : Framerate := { value := 60000 / 1001, ntsc := Ntsc.DropFrame }

/-- The constant `PREMIERE_TICKS_PER_SECOND` from `consts.rs`. -/
def PREMIERE_TICKS_PER_SECOND : ℚ := 254016000000

/-- The constant `SECONDS_PER_MINUTE` from `consts.rs`. -/
def SECONDS_PER_MINUTE : ℚ := 60

/-- The constant `SECONDS_PER_HOUR` from `consts.rs`. -/
def SECONDS_PER_HOUR : ℚ := 60 * 60

/-- The constant `PERFS_PER_FOOT_35` from `consts.rs`. -/
def PERFS_PER_FOOT_35 : ℤ := 64

/-- The constant `PERFS_PER_6INCHES_16` from `consts.rs`. -/
def PERFS_PER_6INCHES_16 : ℤ := 20

/-- The `TimecodeSections` struct from `timecode.rs`. -/
structure TimecodeSections where
  negative : Bool
  hours : ℤ
  minutes : ℤ
  seconds : ℤ
  frames : ℤ
deriving DecidableEq, Repr

/-- The `FilmFormat` enum from `timecode.rs`. -/
inductive FilmFormat
  | FF35mm4perf
  | FF35mm3perf
  | FF35mm2perf
  | FF16mm
deriving DecidableEq, Repr

/-- `FilmFormat::perfs_per_foot` from `timecode.rs`. -/
def FilmFormat.perfs_per_foot (self : FilmFormat) : ℤ :=
  match self with
  | FilmFormat.FF16mm => PERFS_PER_6INCHES_16
  | FilmFormat.FF35mm4perf => PERFS_PER_FOOT_35
  | FilmFormat.FF35mm3perf => PERFS_PER_FOOT_35
  | FilmFormat.FF35mm2perf => PERFS_PER_FOOT_35

/-- `FilmFormat::perfs_per_frame` from `timecode.rs`. -/
def FilmFormat.perfs_per_frame (self : FilmFormat) : ℤ :=
  match self with
  | FilmFormat.FF16mm => 1
  | FilmFormat.FF35mm4perf => 4
  | FilmFormat.FF35mm3perf => 3
  | FilmFormat.FF35mm2perf => 2

/-- Modelled from the spec: `FilmFormat::footage_modulus_footage_count` is
called by `parse_feet_and_frames_str` in `source_frames.rs` but its
definition is not under `src/`.  Spec §3 derives all other footage
quantities by lcm arithmetic over the two per-format constants: the footage
modulus is `lcm(perfsPerFoot, perfsPerFrame)` perforations, and this method
returns the number of whole feet that modulus spans. -/
def FilmFormat.footage_modulus_footage_count (self : FilmFormat) : ℤ :=
  (Int.lcm self.perfs_per_foot self.perfs_per_frame : ℤ).tdiv self.perfs_per_foot

/-- Modelled from the spec: `FilmFormat::footage_modulus_frame_count` is
called by `parse_feet_and_frames_str` in `source_frames.rs` but its
definition is not under `src/`.  It returns the number of whole frames in
the footage modulus of `lcm(perfsPerFoot, perfsPerFrame)` perforations. -/
def FilmFormat.footage_modulus_frame_count (self : FilmFormat) : ℤ :=
  (Int.lcm self.perfs_per_foot self.perfs_per_frame : ℤ).tdiv self.perfs_per_frame

/-- Modelled from the spec: `FilmFormat::allows_perf_field` is called by
`parse_feet_and_frames_str` in `source_frames.rs` but its definition is not
under `src/`.  Spec §4.2/§6 state the perforation-offset suffix exists
exactly when `perfsPerFoot` is not evenly divisible by `perfsPerFrame`
(true only for 3-perf 35mm). -/
def FilmFormat.allows_perf_field (self : FilmFormat) : Bool :=
  self.perfs_per_foot.tmod self.perfs_per_frame ≠ 0

/-- The `Timecode` struct from `timecode.rs`: exact rational seconds plus a
framerate. -/
structure Timecode where
  seconds : ℚ
  rate : Framerate
deriving DecidableEq, Repr

/-- `round_seconds_to_frame` from `timecode_parse.rs`: round a seconds value
to the nearest whole frame of `rate`. -/
def round_seconds_to_frame (seconds : ℚ) (rate : Framerate) : ℚ :=
  if ratTruncMod seconds rate.playback⁻¹ ≠ 0 then
    (ratRound (seconds * rate.playback) : ℚ) / rate.playback
  else
    seconds

/-- `Timecode::with_rational_seconds` from `timecode.rs`. -/
def Timecode.with_rational_seconds (seconds : ℚ) (rate : Framerate) : Timecode :=
  { seconds := round_seconds_to_frame seconds rate, rate := rate }

/-- `Timecode::with_i64_frames` from `timecode.rs`. -/
def Timecode.with_i64_frames (frame_count : ℤ) (rate : Framerate) : Timecode :=
  Timecode.with_rational_seconds ((frame_count : ℚ) / rate.playback) rate

/-- `Timecode::frames` from `timecode.rs`: the exact numerator when
`seconds * playback` has denominator 1, otherwise the rounded product. -/
def Timecode.frames (self : Timecode) : ℤ :=
  let rational_frames := self.seconds * self.rate.playback
  if rational_frames.den = 1 then rational_frames.num
  else ratRound rational_frames

/-- `frame_num_to_drop_num` from `timecode.rs` (the forward drop-frame
adjustment), translated statement by statement.  The Rust code calls
`rate.drop_frames().unwrap()` — the method is named
`drop_frames_per_minute` in `framerate.rs` of this snapshot — and the
`unwrap` can only be reached through `Timecode::sections`, which guards on
`ntsc == DropFrame`; the `none` case is modelled by `getD 0`. -/
def frame_num_to_drop_num (frame_number : ℤ) (rate : Framerate) : ℤ :=
  let timebase := ratTrunc rate.timebase
  let frames_per_minute := timebase * 60
  let drop_frames := rate.drop_frames_per_minute.getD 0
  let frames_per_minute_drop := timebase * 60 - drop_frames
  let frames_per_10minutes_drop := frames_per_minute_drop * 9 + frames_per_minute
  let tens_of_minutes := frame_number.fdiv frames_per_10minutes_drop
  let frames0 := frame_number.fmod frames_per_10minutes_drop
  let adjustment := 9 * drop_frames * tens_of_minutes
  if frames0 < frames_per_minute then
    frame_number + adjustment
  else
    let frames1 := frames0 - timebase
    let adjustment := adjustment + drop_frames
    let minutes_drop := frames1.tdiv frames_per_minute_drop
    let adjustment := adjustment + minutes_drop * drop_frames
    frame_number + adjustment

/-- `Timecode::sections` from `timecode.rs`: decompose the absolute frame
count (drop-frame remapped when the rate is drop-frame) into
hours/minutes/seconds/frames using the timebase. -/
def Timecode.sections (self : Timecode) : TimecodeSections :=
  let frames : ℚ := ((|self.frames| : ℤ) : ℚ)
  let timebase := self.rate.timebase
  let frames : ℚ :=
    if self.rate.ntsc = Ntsc.DropFrame then
      ((frame_num_to_drop_num (ratTrunc frames) self.rate : ℤ) : ℚ)
    else frames
  let frames_per_minute := timebase * SECONDS_PER_MINUTE
  let frames_per_hour := timebase * SECONDS_PER_HOUR
  let hours := ⌊frames / frames_per_hour⌋
  let frames := ratTruncMod frames frames_per_hour
  let minutes := ⌊frames / frames_per_minute⌋
  let frames := ratTruncMod frames frames_per_minute
  let seconds := ⌊frames / timebase⌋
  let frames := ratRound (ratTruncMod frames timebase)
  { negative := self.seconds < 0
    hours := hours
    minutes := minutes
    seconds := seconds
    frames := frames }

/-- Zero-padded rendering of a (nonnegative) section value, Rust's
`format!` with a `{:02}` spec. -/
def pad2 (n : ℤ) : String :=
  if n < 10 then "0" ++ n.natAbs.repr else n.natAbs.repr

/-- Rendering of an `i64` with Rust's plain `{}` format spec. -/
def intStr (n : ℤ) : String :=
  if n < 0 then "-" ++ n.natAbs.repr else n.natAbs.repr

/-- `Timecode::timecode` from `timecode.rs`: the SMPTE timecode string,
with a semicolon frame separator for drop-frame rates. -/
def Timecode.timecode (self : Timecode) : String :=
  let sections := self.sections
  let sign := if self.seconds < 0 then "-" else ""
  let frame_sep := if self.rate.ntsc = Ntsc.DropFrame then ";" else ":"
  sign ++ pad2 sections.hours ++ ":" ++ pad2 sections.minutes ++ ":" ++
    pad2 sections.seconds ++ frame_sep ++ pad2 sections.frames

/-- `feet_and_frames_impl` from `Timecode::feet_and_frames` in
`timecode.rs`: `div_mod_floor` is floored division, the `%` in the suffix
and the divisibility test are Rust's native (truncated) `i64` remainder. -/
def feet_and_frames_impl (frames : ℤ) (is_negative : Bool)
    (perfs_per_frame perfs_per_foot : ℤ) : String :=
  let feet := (|frames * perfs_per_frame|).fdiv perfs_per_foot
  let rem_perfs := (|frames * perfs_per_frame|).fmod perfs_per_foot
  let frames_in_foot := rem_perfs.fdiv perfs_per_frame
  let sign := if is_negative then "-" else ""
  if perfs_per_foot.tmod perfs_per_frame ≠ 0 then
    sign ++ intStr feet ++ "+" ++ pad2 frames_in_foot ++ "." ++
      intStr (feet.tmod perfs_per_frame)
  else
    sign ++ intStr feet ++ "+" ++ pad2 frames_in_foot

/-- `Timecode::feet_and_frames` from `timecode.rs`. -/
def Timecode.feet_and_frames (self : Timecode) (rep : FilmFormat) : String :=
  feet_and_frames_impl self.frames (self.seconds < 0)
    rep.perfs_per_frame rep.perfs_per_foot

/-- `impl Add for Timecode` from `timecode.rs`: add the exact seconds and
re-round under the left operand's rate. -/
def Timecode.add (self rhs : Timecode) : Timecode :=
  Timecode.with_rational_seconds (self.seconds + rhs.seconds) self.rate

/-- `impl Sub for Timecode` from `timecode.rs`. -/
def Timecode.sub (self rhs : Timecode) : Timecode :=
  Timecode.with_rational_seconds (self.seconds - rhs.seconds) self.rate

/-- `impl Mul<Rational64> for Timecode` from `timecode.rs`. -/
def Timecode.mulRat (self : Timecode) (rhs : ℚ) : Timecode :=
  Timecode.with_rational_seconds (self.seconds * rhs) self.rate

/-- `impl Mul<i64> for Timecode` from `timecode.rs`. -/
def Timecode.mulInt (self : Timecode) (rhs : ℤ) : Timecode :=
  Timecode.with_rational_seconds (self.seconds * (rhs : ℚ)) self.rate

/-- `impl Div<Rational64> for Timecode` from `timecode.rs`: floor the
rational quotient of the frame count. -/
def Timecode.divRat (self : Timecode) (rhs : ℚ) : Timecode :=
  Timecode.with_i64_frames ⌊(self.frames : ℚ) / rhs⌋ self.rate

/-- `impl Rem<Rational64> for Timecode` from `timecode.rs`: the (truncated)
rational remainder of the frame count, rounded to an integer. -/
def Timecode.remRat (self : Timecode) (rhs : ℚ) : Timecode :=
  Timecode.with_i64_frames (ratRound (ratTruncMod (self.frames : ℚ) rhs)) self.rate

/-- `impl Div<i64> for Timecode` from `timecode.rs`: Rust `i64` division
truncates towards zero. -/
def Timecode.divInt (self : Timecode) (rhs : ℤ) : Timecode :=
  Timecode.with_i64_frames (self.frames.tdiv rhs) self.rate

/-- `impl Rem<i64> for Timecode` from `timecode.rs`: Rust `i64` remainder
(truncated). -/
def Timecode.remInt (self : Timecode) (rhs : ℤ) : Timecode :=
  Timecode.with_i64_frames (self.frames.tmod rhs) self.rate

/-- `impl Neg for Timecode` from `timecode.rs`. -/
def Timecode.negate (self : Timecode) : Timecode :=
  Timecode.with_rational_seconds (-self.seconds) self.rate

/-- `Timecode::abs` from `timecode.rs`. -/
def Timecode.absValue (self : Timecode) : Timecode :=
  Timecode.with_rational_seconds |self.seconds| self.rate

/-- `Timecode::rebase` from `timecode.rs`. -/
def Timecode.rebase (self : Timecode) (rate : Framerate) : Timecode :=
  Timecode.with_i64_frames self.frames rate

/-- `Timecode::with_premiere_ticks` from `timecode.rs` for an `i64` tick
source: the Rust code divides by `PREMIERE_TICKS_PER_SECOND` in an `i128`
rational precisely so the computation is exact; here the rationals are
unbounded and the division is exact by construction. -/
def Timecode.with_premiere_ticks (ticks : ℤ) (rate : Framerate) : Timecode :=
  Timecode.with_rational_seconds ((ticks : ℚ) / PREMIERE_TICKS_PER_SECOND) rate

/-- Whether a character is matched by the regex class `[0-9]`. -/
def isDigitChar (c : Char) : Bool :=
  '0' ≤ c ∧ c ≤ '9'

/-- Whether a character is matched by the separator class `[:|;]` of
`TIMECODE_REGEX` in `consts.rs` (note the class contains a literal `|`). -/
def isSepChar (c : Char) : Bool :=
  c = ':' ∨ c = '|' ∨ c = ';'

/-- Integer value of a digit group, as produced by `convert_tc_int` in
`timecode_parse.rs`.  The groups fed to it are all-digit by construction of
the regexes; the `i64`-overflow `Conversion` branch cannot fire for the
unbounded integers used here. -/
def digitsVal (ds : List Char) : ℤ :=
  (ds.foldl (fun a c => a * 10 + (c.toNat - '0'.toNat)) 0 : ℕ)

/-- The capture groups of `TIMECODE_REGEX` from `consts.rs`: the optional
leading `-`, the section groups present (in order), and the mandatory
frames group. -/
structure TcCaptures where
  negative : Bool
  secs : List ℤ
  frames : ℤ
deriving DecidableEq, Repr

/-- Token scanner equivalent to the body of `TIMECODE_REGEX`
(`^(-)?((\d+)[:|;])?((\d+)[:|;])?((\d+)[:|;])?(\d+)$` after the sign):
splits the characters into nonempty digit groups separated by single
separator characters, refusing any other character, a leading or trailing
separator, or an empty group.  Every regex match decomposes uniquely this
way because each optional group requires a separator directly after its
(greedy) digit run. -/
def tcTokens : List Char → List Char → Option (List (List Char))
  | [], cur => if cur.isEmpty then Option.none else Option.some [cur.reverse]
  | c :: cs, cur =>
    if isDigitChar c then tcTokens cs (c :: cur)
    else if isSepChar c then
      if cur.isEmpty then Option.none
      else (tcTokens cs []).map (fun toks => cur.reverse :: toks)
    else Option.none

/-- `TIMECODE_REGEX.captures` from `source_frames.rs`/`consts.rs`: at most
three section groups may precede the frames group. -/
def tcCaptures (s : String) : Option TcCaptures :=
  let cs := s.data
  let negative := match cs with
    | '-' :: _ => true
    | _ => false
  let rest := if negative then cs.tail else cs
  match tcTokens rest [] with
  | Option.none => Option.none
  | Option.some toks =>
    if toks.length ≤ 4 then
      Option.some
        { negative := negative
          secs := (toks.dropLast).map digitsVal
          frames := digitsVal (toks.getLastD []) }
    else Option.none

/-- The capture groups of `FEET_AND_FRAMES_REGEX` from `consts.rs`.  The
pattern is `^(-)?(\d+)\+(\d+)(\.P<perf>[0-9])?$`: the final group matches a
literal `.P<perf>` then one digit — it is a plain group, not a named one,
so a capture named `perf` never exists and the `perf` field below is
`none` on every match. -/
structure FfCaptures where
  negative : Bool
  feet : ℤ
  frames : ℤ
  perf : Option ℤ
deriving DecidableEq, Repr

/-- `FEET_AND_FRAMES_REGEX.captures` from `source_frames.rs`/`consts.rs`,
as a deterministic matcher for the (unambiguous) pattern. -/
def ffCaptures (s : String) : Option FfCaptures :=
  let cs := s.data
  let negative := match cs with
    | '-' :: _ => true
    | _ => false
  let rest := if negative then cs.tail else cs
  let feetSplit := rest.span isDigitChar
  if feetSplit.1.isEmpty then Option.none
  else
    match feetSplit.2 with
    | '+' :: afterPlus =>
      let frSplit := afterPlus.span isDigitChar
      if frSplit.1.isEmpty then Option.none
      else
        match frSplit.2 with
        | [] =>
          Option.some
            { negative := negative
              feet := digitsVal feetSplit.1
              frames := digitsVal frSplit.1
              perf := Option.none }
        | '.' :: 'P' :: '<' :: 'p' :: 'e' :: 'r' :: 'f' :: '>' :: [d] =>
          if isDigitChar d then
            Option.some
              { negative := negative
                feet := digitsVal feetSplit.1
                frames := digitsVal frSplit.1
                perf := Option.none }
          else Option.none
        | _ => Option.none
    | _ => Option.none

/-- `drop_frame_tc_adjustment` from `source_frames.rs`: reject illegal
dropped-frame values, otherwise return the (negative) frame adjustment.
As in `frame_num_to_drop_num`, the `unwrap` of `drop_frames_per_minute` is
guarded by the caller's `ntsc == DropFrame` check. -/
def drop_frame_tc_adjustment (sections : TimecodeSections) (rate : Framerate) :
    Except TimecodeParseError ℤ :=
  let drop_frames := rate.drop_frames_per_minute.getD 0
  let has_bad_frames := sections.frames < drop_frames
  let is_tenth_minute := sections.minutes.tmod 10 = 0
  let is_minute_boundary := sections.seconds = 0
  if has_bad_frames ∧ is_minute_boundary ∧ ¬is_tenth_minute then
    Except.error TimecodeParseError.DropFrameValue
  else
    let total_minutes := 60 * sections.hours + sections.minutes
    let adjustment := drop_frames * (total_minutes - total_minutes.tdiv 10)
    Except.ok (-adjustment)

/-- The section-popping logic of `parse_timecode_string` in
`source_frames.rs`: values are popped from the end of the present sections,
filling seconds, then minutes, then hours, with 0 for missing sections.
The argument is the *reversed* list of present section groups. -/
def popSections : List ℤ → ℤ × ℤ × ℤ
  | [] => (0, 0, 0)
  | [s] => (s, 0, 0)
  | [s, m] => (s, m, 0)
  | s :: m :: h :: _ => (s, m, h)

/-- `parse_timecode_string` from `source_frames.rs`, downstream of the
regex captures. -/
def parse_timecode_string (c : TcCaptures) (rate : Framerate) :
    Except TimecodeParseError ℤ := do
  let smh := popSections c.secs.reverse
  let seconds := smh.1
  let minutes := smh.2.1
  let hours := smh.2.2
  let drop_adjustment ←
    if rate.ntsc = Ntsc.DropFrame then
      drop_frame_tc_adjustment
        { negative := c.negative, hours := hours, minutes := minutes,
          seconds := seconds, frames := c.frames } rate
    else
      Except.ok 0
  let seconds_total := seconds + minutes * 60 + hours * 3600
  let frames_rat := (seconds_total : ℚ) * rate.timebase + (c.frames : ℚ)
  let frames := ratRound frames_rat + drop_adjustment
  Except.ok (if c.negative then -frames else frames)

/-- `parse_feet_and_frames_str` from `source_frames.rs`: infer the film
format from the (hint, perf-capture) pair, then accumulate frames foot by
foot through the footage modulus.  The `while rem_feet > 0` loop adds the
constant `footage_modulus_frame_count / footage_modulus_footage_count`
(Rust integer division) once per remaining foot, i.e. `max rem_feet 0`
times. -/
def parse_feet_and_frames_str (c : FfCaptures) (given_format : Option FilmFormat) :
    Except TimecodeParseError ℤ :=
  let final_format : Except TimecodeParseError FilmFormat :=
    match given_format, c.perf with
    | Option.some film_format, Option.some _ =>
      if ¬film_format.allows_perf_field then
        Except.error TimecodeParseError.UnknownStrFormat
      else Except.ok film_format
    | Option.some film_format, Option.none => Except.ok film_format
    | Option.none, Option.some _ => Except.ok FilmFormat.FF35mm3perf
    | Option.none, Option.none => Except.ok FilmFormat.FF35mm4perf
  match final_format with
  | Except.error e => Except.error e
  | Except.ok final_format =>
    let rem_frames := c.frames
    let footage_moduli := c.feet.fdiv final_format.footage_modulus_footage_count
    let rem_feet := c.feet - footage_moduli * final_format.footage_modulus_footage_count
    let rem_frames := rem_frames + footage_moduli * final_format.footage_modulus_frame_count
    let rem_frames := rem_frames +
      (rem_feet.toNat : ℤ) *
        (final_format.footage_modulus_frame_count.tdiv
          final_format.footage_modulus_footage_count)
    let rem_frames := if c.negative then -rem_frames else rem_frames
    Except.ok rem_frames

/-- `FramesSource::to_frames` for `&str` from `source_frames.rs`: try the
timecode pattern, then the feet+frames pattern (with no format hint), then
fail with `UnknownStrFormat`. -/
def strToFrames (s : String) (rate : Framerate) : Except TimecodeParseError ℤ :=
  match tcCaptures s with
  | Option.some c => parse_timecode_string c rate
  | Option.none =>
    match ffCaptures s with
    | Option.some c => parse_feet_and_frames_str c Option.none
    | Option.none => Except.error TimecodeParseError.UnknownStrFormat

/-- `Timecode::with_frames` from `timecode.rs`, for a string source. -/
def Timecode.with_frames_str (s : String) (rate : Framerate) :
    Except TimecodeParseError Timecode := do
  let frame_count ← strToFrames s rate
  Except.ok (Timecode.with_i64_frames frame_count rate)

/-- `onFrameBoundary tc` is the whole-frame invariant of spec §3: the
seconds value multiplied by the playback rate is an integer. -/
def onFrameBoundary (tc : Timecode) : Prop :=
  (tc.seconds * tc.rate.playback).den = 1

/-- Truncation of an integer is itself. -/
theorem ratTrunc_intCast (k : ℤ) : ratTrunc (k : ℚ) = k := by
  unfold ratTrunc
  split <;> simp

/-- Rounding of an integer is itself. -/
theorem ratRound_intCast (k : ℤ) : ratRound (k : ℚ) = k := by
  unfold ratRound
  split
  · rw [Int.floor_eq_iff]
    constructor <;> linarith
  · rw [Int.ceil_eq_iff]
    constructor <;> linarith

/-- Dividing by an inverse is multiplying. -/
theorem div_inv_eq_mul (a b : ℚ) : a / b⁻¹ = a * b := by
  rw [div_eq_mul_inv, inv_inv]

/-- When `s * p` is an integer, the truncated remainder of `s` by `p⁻¹`
vanishes: `s` already sits on a frame boundary of rate `p`. -/
theorem ratTruncMod_inv_eq_zero (s p : ℚ) (hp : p ≠ 0)
    (hden : (s * p).den = 1) : ratTruncMod s p⁻¹ = 0 := by
  unfold ratTruncMod
  rw [div_inv_eq_mul]
  have h1 : ((s * p).num : ℚ) = s * p := (Rat.den_eq_one_iff _).mp hden
  rw [← h1, ratTrunc_intCast, h1, mul_assoc, mul_inv_cancel₀ hp, mul_one,
    sub_self]

/-- `round_seconds_to_frame` leaves a value that is already on a frame
boundary untouched. -/
theorem round_seconds_eq_self (s : ℚ) (rate : Framerate)
    (hp : rate.playback ≠ 0) (hden : (s * rate.playback).den = 1) :
    round_seconds_to_frame s rate = s := by
  unfold round_seconds_to_frame
  simp [ratTruncMod_inv_eq_zero s rate.playback hp hden]

/-- The output of `round_seconds_to_frame` is always on a frame boundary
(for a nonzero playback rate): this is the heart of the spec §3 whole-frame
invariant. -/
theorem round_seconds_den_one (s : ℚ) (rate : Framerate)
    (hp : rate.playback ≠ 0) :
    (round_seconds_to_frame s rate * rate.playback).den = 1 := by
  unfold round_seconds_to_frame
  by_cases hc : ratTruncMod s rate.playback⁻¹ ≠ 0
  · rw [if_pos hc, div_mul_cancel₀ _ hp, Rat.den_intCast]
  · rw [if_neg hc]
    have h0 : ratTruncMod s rate.playback⁻¹ = 0 := not_ne_iff.mp hc
    unfold ratTruncMod at h0
    rw [div_inv_eq_mul] at h0
    have hs : s = (ratTrunc (s * rate.playback) : ℚ) * rate.playback⁻¹ :=
      sub_eq_zero.mp h0
    rw [hs, mul_assoc, inv_mul_cancel₀ hp, mul_one, Rat.den_intCast]

/-- Any `with_rational_seconds` result satisfies the whole-frame
invariant. -/
theorem with_rational_seconds_boundary (s : ℚ) (rate : Framerate)
    (hp : rate.playback ≠ 0) :
    onFrameBoundary (Timecode.with_rational_seconds s rate) :=
  round_seconds_den_one s rate hp

/-- The seconds stored by `with_i64_frames` are exactly
`frame_count / playback`. -/
theorem with_i64_frames_seconds (k : ℤ) (rate : Framerate)
    (hp : rate.playback ≠ 0) :
    (Timecode.with_i64_frames k rate).seconds = (k : ℚ) / rate.playback := by
  unfold Timecode.with_i64_frames Timecode.with_rational_seconds
  exact round_seconds_eq_self _ _ hp
    (by rw [div_mul_cancel₀ _ hp, Rat.den_intCast])

/-- On a frame boundary, `Timecode::frames` takes the exact-numerator
path. -/
theorem frames_of_boundary (tc : Timecode)
    (hden : (tc.seconds * tc.rate.playback).den = 1) :
    tc.frames = (tc.seconds * tc.rate.playback).num := by
  unfold Timecode.frames
  rw [if_pos hden]

/-- The frame-count round trip at the heart of claim C5:
`with_i64_frames` stores exactly the frame count it was given. -/
theorem frames_with_i64_frames (k : ℤ) (rate : Framerate)
    (hp : rate.playback ≠ 0) :
    (Timecode.with_i64_frames k rate).frames = k := by
  have hs := with_i64_frames_seconds k rate hp
  have hrate : (Timecode.with_i64_frames k rate).rate = rate := rfl
  have hmul : (Timecode.with_i64_frames k rate).seconds *
      (Timecode.with_i64_frames k rate).rate.playback = (k : ℚ) := by
    rw [hrate, hs, div_mul_cancel₀ _ hp]
  rw [frames_of_boundary _ (by rw [hmul]; exact Rat.den_intCast k), hmul,
    Rat.num_intCast]

/-- A sum of two integral rationals is integral. -/
theorem den_one_add (x y : ℚ) (hx : x.den = 1) (hy : y.den = 1) :
    (x + y).den = 1 := by
  rw [← (Rat.den_eq_one_iff x).mp hx, ← (Rat.den_eq_one_iff y).mp hy,
    ← Int.cast_add, Rat.den_intCast]

/-- A difference of two integral rationals is integral. -/
theorem den_one_sub (x y : ℚ) (hx : x.den = 1) (hy : y.den = 1) :
    (x - y).den = 1 := by
  rw [← (Rat.den_eq_one_iff x).mp hx, ← (Rat.den_eq_one_iff y).mp hy,
    ← Int.cast_sub, Rat.den_intCast]

/-- Adding two timecodes built from whole frame counts at the same rate
adds the frame counts. -/
theorem with_i64_frames_add (k l : ℤ) (rate : Framerate)
    (hp : rate.playback ≠ 0) :
    (Timecode.with_i64_frames k rate).add (Timecode.with_i64_frames l rate) =
      Timecode.with_i64_frames (k + l) rate := by
  have h : (Timecode.with_i64_frames k rate).seconds +
      (Timecode.with_i64_frames l rate).seconds =
      ((k + l : ℤ) : ℚ) / rate.playback := by
    rw [with_i64_frames_seconds k rate hp, with_i64_frames_seconds l rate hp,
      div_add_div_same, ← Int.cast_add]
  show Timecode.with_rational_seconds _ rate = _
  rw [h]
  rfl

/-- Scaling a timecode built from a whole frame count by an integer scales
the frame count. -/
theorem with_i64_frames_mulInt (k n : ℤ) (rate : Framerate)
    (hp : rate.playback ≠ 0) :
    (Timecode.with_i64_frames k rate).mulInt n =
      Timecode.with_i64_frames (k * n) rate := by
  have h : (Timecode.with_i64_frames k rate).seconds * (n : ℚ) =
      ((k * n : ℤ) : ℚ) / rate.playback := by
    rw [with_i64_frames_seconds k rate hp, div_mul_eq_mul_div, ← Int.cast_mul]
  show Timecode.with_rational_seconds _ rate = _
  rw [h]
  rfl

/-- `divInt` on a whole-frame timecode is truncated division of the frame
count. -/
theorem with_i64_frames_divInt (k n : ℤ) (rate : Framerate)
    (hp : rate.playback ≠ 0) :
    (Timecode.with_i64_frames k rate).divInt n =
      Timecode.with_i64_frames (k.tdiv n) rate := by
  show Timecode.with_i64_frames ((Timecode.with_i64_frames k rate).frames.tdiv n) rate = _
  rw [frames_with_i64_frames k rate hp]

/-- `remInt` on a whole-frame timecode is the truncated remainder of the
frame count. -/
theorem with_i64_frames_remInt (k n : ℤ) (rate : Framerate)
    (hp : rate.playback ≠ 0) :
    (Timecode.with_i64_frames k rate).remInt n =
      Timecode.with_i64_frames (k.tmod n) rate := by
  show Timecode.with_i64_frames ((Timecode.with_i64_frames k rate).frames.tmod n) rate = _
  rw [frames_with_i64_frames k rate hp]

/-- C5: for every `i64` frame count and every valid framerate (a framerate
with nonzero playback — the only constructible degenerate case is playback
zero, where the Rust rational division would panic), constructing a
`Timecode` from the frame count and reading back `frames()` returns the
same count; over the exact rationals no rounding intervenes. -/
theorem C5_with_frames_round_trip (frame_count : ℤ) (rate : Framerate)
    (hp : rate.playback ≠ 0) :
    (Timecode.with_i64_frames frame_count rate).frames = frame_count :=
  frames_with_i64_frames frame_count rate hp

/-- Witness for C5 at the library's doc example `17:23:13:02 @ 23.98 NDF`,
frame count 1502234. -/
theorem C5_witness :
    F23_98.playback ≠ 0 ∧
    (Timecode.with_i64_frames 1502234 F23_98).frames = 1502234 :=
  ⟨by with_unfolding_all decide,
   C5_with_frames_round_trip 1502234 F23_98 (by with_unfolding_all decide)⟩

/-- C6 counterexample: for `tc` with frame count 2 at 24 fps and the
rational scalar `n = 3/2` (the decimal 1.5), the code's
`(tc / n) * n + (tc % n)` has frame count 3, not 2: `tc / n` floors
`2 / (3/2)` to frame 1, multiplying back gives seconds `3/(2·24)` which
round *up* to frame 2 (half away from zero), while `tc % n` rounds the
remainder `1/2` up to frame 1 — both half-frame ties round up, so the sum
gains a frame. -/
theorem C6_counterexample :
    ((((Timecode.with_i64_frames 2 F24).divRat (3 / 2)).mulRat (3 / 2)).add
        ((Timecode.with_i64_frames 2 F24).remRat (3 / 2))).frames = 3 ∧
    (Timecode.with_i64_frames 2 F24).frames = 2 := by
  constructor <;> with_unfolding_all rfl

/-- C6 amended: the division/remainder complement identity holds at the
frame-count level for every nonzero *integer* scalar (where both `/` and
`%` are Rust's truncated `i64` operations); for rational/decimal scalars
it can fail on half-frame ties, as the counterexample shows. -/
theorem C6_div_rem_complementary_int (f n : ℤ) (rate : Framerate)
    (hp : rate.playback ≠ 0) (_hn : n ≠ 0) :
    ((((Timecode.with_i64_frames f rate).divInt n).mulInt n).add
        ((Timecode.with_i64_frames f rate).remInt n)).frames = f := by
  rw [with_i64_frames_divInt f n rate hp, with_i64_frames_mulInt _ n rate hp,
    with_i64_frames_remInt f n rate hp, with_i64_frames_add _ _ rate hp,
    frames_with_i64_frames _ rate hp, mul_comm]
  exact Int.tdiv_add_tmod f n

/-- Witness for C6 (amended) at frame count 7, scalar 3, 24 fps. -/
theorem C6_witness :
    F24.playback ≠ 0 ∧ (3 : ℤ) ≠ 0 ∧
    ((((Timecode.with_i64_frames 7 F24).divInt 3).mulInt 3).add
        ((Timecode.with_i64_frames 7 F24).remInt 3)).frames = 7 :=
  ⟨by with_unfolding_all decide, by decide,
   C6_div_rem_complementary_int 7 3 F24 (by with_unfolding_all decide) (by decide)⟩

/-- C9: every timecode produced by a constructor (frames, rational seconds,
premiere ticks) or by any arithmetic operation (add, subtract, multiply,
divide, remainder, negate, absolute value, rebase) lies on a whole frame
boundary under its own rate: seconds times playback is an integer.  All
those operations funnel through `with_rational_seconds`, whose
`round_seconds_to_frame` establishes the invariant whenever the playback
rate is nonzero. -/
theorem C9_whole_frame_invariant (s q : ℚ) (f n t : ℤ) (a b : Timecode)
    (r r2 : Framerate) (hr : r.playback ≠ 0) (hr2 : r2.playback ≠ 0)
    (ha : a.rate.playback ≠ 0) :
    onFrameBoundary (Timecode.with_i64_frames f r) ∧
    onFrameBoundary (Timecode.with_rational_seconds s r) ∧
    onFrameBoundary (Timecode.with_premiere_ticks t r) ∧
    onFrameBoundary (a.add b) ∧
    onFrameBoundary (a.sub b) ∧
    onFrameBoundary (a.mulInt n) ∧
    onFrameBoundary (a.mulRat q) ∧
    onFrameBoundary (a.divInt n) ∧
    onFrameBoundary (a.divRat q) ∧
    onFrameBoundary (a.remInt n) ∧
    onFrameBoundary (a.remRat q) ∧
    onFrameBoundary a.negate ∧
    onFrameBoundary a.absValue ∧
    onFrameBoundary (a.rebase r2) := by
  refine ⟨?_, ?_, ?_, ?_, ?_, ?_, ?_, ?_, ?_, ?_, ?_, ?_, ?_, ?_⟩ <;>
    first
      | exact with_rational_seconds_boundary _ _ hr
      | exact with_rational_seconds_boundary _ _ ha
      | exact with_rational_seconds_boundary _ _ hr2

/-- Witness for C9 with concrete timecodes and scalars at 24 fps and
23.98 NDF. -/
theorem C9_witness :
    (F24.playback ≠ 0 ∧ F23_98.playback ≠ 0 ∧
      (Timecode.with_i64_frames 5 F24).rate.playback ≠ 0) ∧
    onFrameBoundary (Timecode.with_i64_frames 3 F24) :=
  ⟨⟨by with_unfolding_all decide, by with_unfolding_all decide,
     by with_unfolding_all decide⟩,
   (C9_whole_frame_invariant 1 (3 / 2) 3 2 254016000000
      (Timecode.with_i64_frames 5 F24) (Timecode.with_i64_frames 7 F24)
      F24 F23_98 (by with_unfolding_all decide) (by with_unfolding_all decide)
      (by with_unfolding_all decide)).1⟩

/-- C10: `add`/`sub` keep the left operand's rate and set the seconds to
the exact rational sum/difference re-rounded to the left rate's frame
grid; when both operands share a (nonzero-playback) rate and each lies on
a frame boundary, the arithmetic is exact — no rounding occurs. -/
theorem C10_add_sub_semantics (a b : Timecode) :
    (a.add b).rate = a.rate ∧
    (a.sub b).rate = a.rate ∧
    (a.add b).seconds = round_seconds_to_frame (a.seconds + b.seconds) a.rate ∧
    (a.sub b).seconds = round_seconds_to_frame (a.seconds - b.seconds) a.rate ∧
    (a.rate.playback ≠ 0 → a.rate = b.rate → onFrameBoundary a →
      onFrameBoundary b →
      (a.add b).seconds = a.seconds + b.seconds ∧
      (a.sub b).seconds = a.seconds - b.seconds) := by
  refine ⟨rfl, rfl, rfl, rfl, fun hp hrate hba hbb => ⟨?_, ?_⟩⟩
  · show round_seconds_to_frame (a.seconds + b.seconds) a.rate = _
    refine round_seconds_eq_self _ _ hp ?_
    rw [add_mul]
    exact den_one_add _ _ hba (by rw [hrate]; exact hbb)
  · show round_seconds_to_frame (a.seconds - b.seconds) a.rate = _
    refine round_seconds_eq_self _ _ hp ?_
    rw [sub_mul]
    exact den_one_sub _ _ hba (by rw [hrate]; exact hbb)

/-- Witness for C10 with two whole-frame timecodes at 24 fps. -/
theorem C10_witness :
    ((Timecode.with_i64_frames 24 F24).rate.playback ≠ 0 ∧
      (Timecode.with_i64_frames 24 F24).rate =
        (Timecode.with_i64_frames 48 F24).rate ∧
      onFrameBoundary (Timecode.with_i64_frames 24 F24) ∧
      onFrameBoundary (Timecode.with_i64_frames 48 F24)) ∧
    ((Timecode.with_i64_frames 24 F24).add
        (Timecode.with_i64_frames 48 F24)).seconds =
      (Timecode.with_i64_frames 24 F24).seconds +
        (Timecode.with_i64_frames 48 F24).seconds :=
  ⟨⟨by with_unfolding_all decide, by with_unfolding_all decide,
     by unfold onFrameBoundary; with_unfolding_all decide,
     by unfold onFrameBoundary; with_unfolding_all decide⟩,
   ((C10_add_sub_semantics (Timecode.with_i64_frames 24 F24)
        (Timecode.with_i64_frames 48 F24)).2.2.2.2
      (by with_unfolding_all decide) (by with_unfolding_all decide)
      (by unfold onFrameBoundary; with_unfolding_all decide)
      (by unfold onFrameBoundary; with_unfolding_all decide)).1⟩

/-- C1: code-bug evidence.  At frame 15000 under 29.97 DF the code renders
"00:08:20;18" (adjusted frame number 15018), not the "00:08:20;16" the
claim — and the library's own `lib.rs` doc demo and the
`timecode_test_parse.rs` fixtures (frame 1828 ↔ "00:01:01;00") — require.
The slip in `frame_num_to_drop_num` is `frames -= timebase` (30 frames)
where a whole minute should be removed before counting the remaining
drop-minutes, over-counting one drop-minute on a band of each 10-minute
block.  The third conjunct evaluates the claim's own decomposition
(10-minute blocks of 17982 frames contributing 9·2 each, plus 2 per
completed drop-minute in the remainder), which yields 15016 →
"00:08:20;16". -/
theorem C1_drop_frame_forward_divergence :
    (Timecode.with_i64_frames 15000 F29_97_DF).timecode = "00:08:20;18" ∧
    frame_num_to_drop_num 15000 F29_97_DF = 15018 ∧
    15000 + 9 * 2 * ((15000 : ℤ).fdiv 17982) +
        2 * (1 + (((15000 : ℤ).fmod 17982) - 1800).fdiv 1798) = 15016 ∧
    (Timecode.with_i64_frames 1828 F29_97_DF).timecode = "00:01:01;02" := by
  refine ⟨?_, ?_, ?_, ?_⟩ <;> with_unfolding_all rfl

/-- C2 counterexample: at frame count 21 under 24 fps in 3-perf 35mm the
code renders "0+21.0" (foot 0, matching the repository's own
`test_35mm3perf` fixture), while the claim's foot formula
`(totalPerfs + perfsPerFrame - 1) floor-div perfsPerFoot` gives foot 1:
the code does not apply the `+ perfsPerFrame - 1` end-of-frame
adjustment. -/
theorem C2_counterexample :
    (Timecode.with_i64_frames 21 F24).feet_and_frames FilmFormat.FF35mm3perf =
      "0+21.0" ∧
    (|(21 : ℤ) * FilmFormat.FF35mm3perf.perfs_per_frame| +
        FilmFormat.FF35mm3perf.perfs_per_frame - 1).fdiv
      FilmFormat.FF35mm3perf.perfs_per_foot = 1 := by
  constructor <;> with_unfolding_all rfl

/-- C2 amended: `feet_and_frames` computes total perforations as
`|frames| · perfsPerFrame`, takes the foot number as the plain floor
division `totalPerfs / perfsPerFoot` (no `+ perfsPerFrame - 1`
adjustment: the frame is attributed to the foot in which it *starts*),
and appends the `.N` suffix — equal to
`foot mod footageModulusFootageCount` — exactly when `perfsPerFoot` is
not evenly divisible by `perfsPerFrame`, which holds only for 3-perf
35mm. -/
theorem C2_feet_and_frames_amended (tc : Timecode) (frames : ℤ) (neg : Bool)
    (format : FilmFormat) :
    (format.perfs_per_foot.tmod format.perfs_per_frame ≠ 0 ↔
      format = FilmFormat.FF35mm3perf) ∧
    tc.feet_and_frames format =
      feet_and_frames_impl tc.frames (decide (tc.seconds < 0))
        format.perfs_per_frame format.perfs_per_foot ∧
    feet_and_frames_impl frames neg format.perfs_per_frame
        format.perfs_per_foot =
      (if format = FilmFormat.FF35mm3perf then
        (if neg then "-" else "") ++
          intStr ((|frames * format.perfs_per_frame|).fdiv
            format.perfs_per_foot) ++ "+" ++
          pad2 (((|frames * format.perfs_per_frame|).fmod
            format.perfs_per_foot).fdiv format.perfs_per_frame) ++ "." ++
          intStr (((|frames * format.perfs_per_frame|).fdiv
            format.perfs_per_foot).tmod format.footage_modulus_footage_count)
      else
        (if neg then "-" else "") ++
          intStr ((|frames * format.perfs_per_frame|).fdiv
            format.perfs_per_foot) ++ "+" ++
          pad2 (((|frames * format.perfs_per_frame|).fmod
            format.perfs_per_foot).fdiv format.perfs_per_frame)) := by
  cases format <;> exact ⟨by decide, rfl, by with_unfolding_all rfl⟩

/-- C3: code-bug evidence.  `FEET_AND_FRAMES_REGEX` spells its optional
suffix group `(\.P<perf>[0-9])?` — a plain group matching the literal
text `.P<perf>` plus a digit — instead of a named capture
`(\.(?P<perf>[0-9]))?`.  Hence "2+5.1" matches no pattern at all and
`with_frames` returns `UnknownStrFormat`, contradicting the claim and the
library's own `lib.rs` doc demo (`"2+5.1"` at 24 fps → "00:00:01:23") and
the `timecode_test_parse.rs` fixtures that feed suffixed strings such as
"85+15.1" to the parser.  The last two conjuncts show the downstream
format inference and footage arithmetic would produce the documented
answer (47 frames → "00:00:01:23") had the capture existed. -/
theorem C3_feet_frames_suffix_divergence :
    Timecode.with_frames_str "2+5.1" F24 =
      Except.error TimecodeParseError.UnknownStrFormat ∧
    tcCaptures "2+5.1" = Option.none ∧
    ffCaptures "2+5.1" = Option.none ∧
    parse_feet_and_frames_str
        { negative := false, feet := 2, frames := 5, perf := Option.some 1 }
        Option.none = Except.ok 47 ∧
    (Timecode.with_i64_frames 47 F24).timecode = "00:00:01:23" := by
  refine ⟨?_, ?_, ?_, ?_, ?_⟩ <;> with_unfolding_all rfl

/-- Reduction of the `Except` monad bind on a success value. -/
theorem except_bind_ok {ε α β : Type} (a : α) (f : α → Except ε β) :
    (Except.ok a : Except ε α) >>= f = f a := rfl

/-- Reduction of the `Except` monad bind on an error value. -/
theorem except_bind_error {ε α β : Type} (e : ε) (f : α → Except ε β) :
    (Except.error e : Except ε α) >>= f = Except.error e := rfl

/-- `drop_frame_tc_adjustment` errors exactly on the claimed combination —
frames field below the drop count, seconds field 0, minutes field not a
multiple of 10 — and the error is always `DropFrameValue`. -/
theorem drop_frame_tc_adjustment_error_iff (sections : TimecodeSections)
    (rate : Framerate) (e : TimecodeParseError) :
    drop_frame_tc_adjustment sections rate = Except.error e ↔
      (e = TimecodeParseError.DropFrameValue ∧
       sections.frames < rate.drop_frames_per_minute.getD 0 ∧
       sections.seconds = 0 ∧ sections.minutes.tmod 10 ≠ 0) := by
  unfold drop_frame_tc_adjustment
  dsimp only
  split
  · rename_i h
    constructor
    · intro heq
      injection heq with he
      exact ⟨he.symm, h.1, h.2.1, h.2.2⟩
    · rintro ⟨rfl, _⟩
      rfl
  · rename_i h
    constructor
    · intro heq
      exact absurd heq (by simp)
    · rintro ⟨_, hA, hB, hC⟩
      exact absurd ⟨hA, hB, hC⟩ h

/-- C4: parsing a drop-frame timecode string yields a `DropFrameValue`
error (never a clamp) if and only if the parsed frames field is below
`drop_frames_per_minute`, the seconds field is 0, and the minutes field is
not a multiple of 10; all other inputs produce a frame count. -/
theorem C4_drop_frame_parse_error_iff (c : TcCaptures) (rate : Framerate)
    (hdf : rate.ntsc = Ntsc.DropFrame) :
    parse_timecode_string c rate =
        Except.error TimecodeParseError.DropFrameValue ↔
      (c.frames < rate.drop_frames_per_minute.getD 0 ∧
       (popSections c.secs.reverse).1 = 0 ∧
       ((popSections c.secs.reverse).2.1).tmod 10 ≠ 0) := by
  unfold parse_timecode_string
  dsimp only
  rw [if_pos hdf]
  rcases hres : drop_frame_tc_adjustment
      { negative := c.negative, hours := (popSections c.secs.reverse).2.2,
        minutes := (popSections c.secs.reverse).2.1,
        seconds := (popSections c.secs.reverse).1, frames := c.frames }
      rate with e | adj
  · obtain ⟨he, hcond⟩ :=
      (drop_frame_tc_adjustment_error_iff _ rate e).mp hres
    subst he
    rw [except_bind_error]
    constructor
    · intro _
      exact hcond
    · intro _
      rfl
  · rw [except_bind_ok]
    constructor
    · intro heq
      simp at heq
    · intro hcond
      have hcontra :=
        (drop_frame_tc_adjustment_error_iff
            { negative := c.negative,
              hours := (popSections c.secs.reverse).2.2,
              minutes := (popSections c.secs.reverse).2.1,
              seconds := (popSections c.secs.reverse).1,
              frames := c.frames }
            rate TimecodeParseError.DropFrameValue).mpr ⟨rfl, hcond⟩
      rw [hres] at hcontra
      simp at hcontra

/-- Witness for C4 at the claim's concrete input "00:01:00:01" under
29.97 DF: the string's captures are `(false, [0, 1, 0], 1)`, the parse
errors with `DropFrameValue`, and so does the full string-source
pipeline. -/
theorem C4_witness :
    F29_97_DF.ntsc = Ntsc.DropFrame ∧
    parse_timecode_string
        { negative := false, secs := [0, 1, 0], frames := 1 } F29_97_DF =
      Except.error TimecodeParseError.DropFrameValue ∧
    tcCaptures "00:01:00:01" =
      Option.some { negative := false, secs := [0, 1, 0], frames := 1 } ∧
    strToFrames "00:01:00:01" F29_97_DF =
      Except.error TimecodeParseError.DropFrameValue :=
  ⟨rfl,
   (C4_drop_frame_parse_error_iff
       { negative := false, secs := [0, 1, 0], frames := 1 } F29_97_DF
       rfl).mpr (by with_unfolding_all decide),
   by with_unfolding_all rfl, by with_unfolding_all rfl⟩

/-- `validate_ntsc_value` can fail only with `Negative`, `Ntsc` or
`DropFrame` — never `Imprecise`. -/
theorem validate_ntsc_value_ne_imprecise (v : ℚ) (ntsc : Ntsc) (b : Bool) :
    validate_ntsc_value v ntsc b ≠
      Except.error FramerateParseError.Imprecise := by
  unfold validate_ntsc_value
  dsimp only
  split_ifs <;> simp

/-- `ratToPlayback` never produces an `Imprecise` error. -/
theorem ratToPlayback_ne_imprecise (v : ℚ) (ntsc : Ntsc) (b : Bool) :
    ratToPlayback v ntsc b ≠
      Except.error FramerateParseError.Imprecise := by
  unfold ratToPlayback
  rcases hval : validate_ntsc_value v ntsc b with e | u
  · have hne := validate_ntsc_value_ne_imprecise v ntsc b
    rw [hval] at hne
    intro hc
    rw [except_bind_error] at hc
    injection hc with he
    exact hne (by rw [he])
  · intro hc
    rw [except_bind_ok] at hc
    split at hc <;> simp at hc

/-- C7: the rational-source validation cascade matches the claim's fixed
order — Negative first, then the NTSC denominator / whole-number rule,
then the drop-frame divisor rule — and a floating-point source is rejected
with `Imprecise` exactly when the NTSC kind is `NotNtsc` (`Ntsc::None`). -/
theorem C7_validation_order_and_imprecise (v x : ℚ) (ntsc : Ntsc)
    (is_base : Bool) :
    validate_ntsc_value v ntsc is_base =
      (if v < 0 then Except.error FramerateParseError.Negative
       else if ntsc.is_ntsc ∧
           (if is_base then v.den ≠ 1 else v.den ≠ 1001) then
         Except.error FramerateParseError.Ntsc
       else if ntsc = Ntsc.DropFrame ∧
           ratTruncMod v
             (if is_base then DROP_DIVISOR_TIMEBASE
              else DROP_DIVISOR_PLAYBACK) ≠ 0 then
         Except.error FramerateParseError.DropFrame
       else Except.ok ()) ∧
    (floatToPlayback x ntsc is_base =
        Except.error FramerateParseError.Imprecise ↔ ntsc = Ntsc.None) := by
  constructor
  · cases is_base <;> cases ntsc <;>
      simp [validate_ntsc_value, Ntsc.is_ntsc]
  · cases hn : ntsc
    · unfold floatToPlayback
      simp [Ntsc.is_ntsc]
    · unfold floatToPlayback
      rw [if_neg (by simp [Ntsc.is_ntsc])]
      constructor
      · intro hc
        exact absurd hc (ratToPlayback_ne_imprecise _ _ _)
      · intro hc
        exact Ntsc.noConfusion hc
    · unfold floatToPlayback
      rw [if_neg (by simp [Ntsc.is_ntsc])]
      constructor
      · intro hc
        exact absurd hc (ratToPlayback_ne_imprecise _ _ _)
      · intro hc
        exact Ntsc.noConfusion hc

/-- C8 counterexample: for the whole-number timebase source 501 with
`NonDropFrame`, the playback is the exact `501000/1001` but the derived
`timebase()` — `round(playback)` — is 500, not 501: `501/1001 > 1/2`, so
the rounding falls one short.  The claimed identity `timebase() == b` fails
for every `b ≥ 501`. -/
theorem C8_counterexample :
    (Framerate.with_timebase 501 Ntsc.NonDropFrame).toOption.map
        Framerate.timebase ≠ Option.some (501 : ℚ) ∧
    (Framerate.with_timebase 501 Ntsc.NonDropFrame).toOption.map
        Framerate.timebase = Option.some (500 : ℚ) ∧
    (Framerate.with_timebase 501 Ntsc.NonDropFrame).toOption.map
        Framerate.playback = Option.some (501000 / 1001 : ℚ) := by
  have h2 : (Framerate.with_timebase 501 Ntsc.NonDropFrame).toOption.map
      Framerate.timebase = Option.some (500 : ℚ) := by
    with_unfolding_all rfl
  refine ⟨?_, h2, by with_unfolding_all rfl⟩
  rw [h2]
  intro hcontra
  injection hcontra with hval
  exact absurd hval (by norm_num)

/-- C8 amended: for every whole-number source `b ≥ 0` and NTSC kind
(`NonDropFrame`, or `DropFrame` when `30 ∣ b`), `with_timebase` succeeds
with playback exactly `b · 1000/1001`, and `timebase()` equals `b`
whenever `b ≤ 500` (beyond that the rounded playback falls below `b`). -/
theorem C8_with_timebase_amended (b : ℤ) (ntsc : Ntsc) (hb : 0 ≤ b)
    (hntsc : ntsc.is_ntsc = true)
    (hdrop : ntsc = Ntsc.DropFrame → (30 : ℤ) ∣ b) :
    Framerate.with_timebase (b : ℚ) ntsc =
      Except.ok { value := (b : ℚ) * 1000 / 1001, ntsc := ntsc } ∧
    (b ≤ 500 →
      ({ value := (b : ℚ) * 1000 / 1001, ntsc := ntsc } : Framerate).timebase =
        (b : ℚ)) := by
  have hbq : (0 : ℚ) ≤ (b : ℚ) := by exact_mod_cast hb
  have hval : validate_ntsc_value (b : ℚ) ntsc true = Except.ok () := by
    unfold validate_ntsc_value
    dsimp only
    rw [if_neg (not_lt.mpr hbq)]
    rw [if_neg (by simp [hntsc])]
    rw [if_neg (by simp [Rat.den_intCast])]
    rw [if_neg (by simp)]
    by_cases hn : ntsc = Ntsc.DropFrame
    · rw [if_neg (by simp [hn])]
      obtain ⟨k, hk⟩ := hdrop hn
      have hmod : ratTruncMod (b : ℚ) DROP_DIVISOR_TIMEBASE = 0 := by
        unfold ratTruncMod DROP_DIVISOR_TIMEBASE
        have h30 : ((30 : ℚ) / 1) = 30 := by norm_num
        rw [h30]
        have hq : ((b : ℚ)) / 30 = (k : ℚ) := by
          rw [hk]
          push_cast
          rw [mul_comm, mul_div_assoc]
          norm_num
        rw [hq, ratTrunc_intCast, hk]
        push_cast
        ring
      rw [if_neg (by simp [hmod])]
    · rw [if_pos hn]
  constructor
  · unfold Framerate.with_timebase ratToPlayback
    simp only [hval, Except.bind]
    rw [if_pos (by exact ⟨trivial, by simp [hntsc]⟩)]
    rw [ratRound_intCast]
    rfl
  · intro hb500
    unfold Framerate.timebase
    dsimp only
    rw [if_pos (by simp [hntsc])]
    have hq0 : (0 : ℚ) ≤ (b : ℚ) * 1000 / 1001 := by positivity
    unfold ratRound
    rw [if_pos hq0]
    have hb500q : ((b : ℚ)) ≤ 500 := by exact_mod_cast hb500
    have hfl : ⌊(b : ℚ) * 1000 / 1001 + 1 / 2⌋ = b := by
      rw [Int.floor_eq_iff]
      constructor
      · have h1 : ((b : ℚ)) - 1 / 2 ≤ (b : ℚ) * 1000 / 1001 := by
          rw [le_div_iff₀ (by norm_num : (0 : ℚ) < 1001)]
          linarith
        linarith
      · have h2 : (b : ℚ) * 1000 / 1001 < (b : ℚ) + 1 / 2 := by
          rw [div_lt_iff₀ (by norm_num : (0 : ℚ) < 1001)]
          linarith
        linarith
    rw [hfl]

/-- Witness for C8 (amended) at the claim's concrete timebase 120,
`NonDropFrame`: playback `120000/1001` and timebase 120. -/
theorem C8_witness :
    (0 : ℤ) ≤ 120 ∧ Ntsc.NonDropFrame.is_ntsc = true ∧
    Framerate.with_timebase ((120 : ℤ) : ℚ) Ntsc.NonDropFrame =
      Except.ok { value := ((120 : ℤ) : ℚ) * 1000 / 1001,
                  ntsc := Ntsc.NonDropFrame } ∧
    ({ value := ((120 : ℤ) : ℚ) * 1000 / 1001,
       ntsc := Ntsc.NonDropFrame } : Framerate).timebase = ((120 : ℤ) : ℚ) :=
  ⟨by decide, by decide,
   (C8_with_timebase_amended 120 Ntsc.NonDropFrame (by decide) (by decide)
      (fun _ => by decide)).1,
   (C8_with_timebase_amended 120 Ntsc.NonDropFrame (by decide) (by decide)
      (fun _ => by decide)).2 (by decide)⟩

end VtcRs

